import Mathlib

/-!
Shallow embedding of the WhatsApp/n8n connector core (multi-tenant instance
orchestrator) and proofs about its specified properties.

Strings are modelled as Lean `String` / `List Char`; the JavaScript string
operations used by the source (`trim`, `includes`, `replace` with a string
pattern, `startsWith`, the sanitization regexes) are translated to executable
functions below.
-/

namespace WaN8n

/-- JavaScript `String.prototype.trim`: drop whitespace from both ends. -/
def jsTrim (s : List Char) : List Char :=
  ((s.dropWhile Char.isWhitespace).reverse.dropWhile Char.isWhitespace).reverse

/-- JavaScript `String.prototype.includes(needle)`: substring occurrence test. -/
def strContains : List Char → List Char → Bool
  | [], needle => needle.isEmpty
  | c :: t, needle => needle.isPrefixOf (c :: t) || strContains t needle

/-- JavaScript `String.prototype.replace(needle, '')` with a plain (non-empty)
string pattern: remove the first occurrence of `needle`, if any. -/
def replaceFirst : List Char → List Char → List Char
  | [], _ => []
  | c :: t, needle =>
    if !needle.isEmpty && needle.isPrefixOf (c :: t) then (c :: t).drop needle.length
    else c :: replaceFirst t needle

/-- The tag names removed by `sanitizeInput` in `src/utils/security.js`,
in the alternation order of the source regex. -/
def tagNames : List (List Char) :=
  ["script".data, "style".data, "iframe".data, "object".data, "embed".data,
   "form".data, "input".data, "button".data, "textarea".data, "select".data,
   "option".data]

/-- Case-insensitive prefix test (the source regexes carry the `i` flag). -/
def ciPrefix : List Char → List Char → Bool
  | [], _ => true
  | _ :: _, [] => false
  | p :: ps, c :: cs => (c.toLower == p.toLower) && ciPrefix ps cs

/-- Try to read one of `tagNames` (case-insensitively) at the head of `s`;
return the remaining suffix. No tag name is a prefix of another, so at most
one alternative can match and regex alternation order is immaterial. -/
def matchTagAfter (s : List Char) : Option (List Char) :=
  (tagNames.find? (fun t => ciPrefix t s)).map (fun t => s.drop t.length)

/-- The lazy `.*?>` tail of the sanitization regexes: consume the shortest
run of non-line-terminator characters up to a `>`; fail if a line terminator
or the end of input comes first (JavaScript `.` does not match `\n`/`\r`). -/
def lazyToGt : List Char → Option (List Char)
  | [] => none
  | c :: t =>
    if c = '>' then some t
    else if c = '\n' ∨ c = '\r' then none
    else lazyToGt t

/-- Match one occurrence of the sanitization regex at the head of `s`:
`<` then (optionally `/`, second pass only) then a disallowed tag name then
lazily anything up to `>`. Returns the suffix after the matched text. -/
def tagMatch (allowSlash : Bool) (s : List Char) : Option (List Char) :=
  match s with
  | [] => none
  | c :: rest =>
    if c = '<' then
      let body :=
        if allowSlash then
          match rest with
          | '/' :: r => r
          | _ => rest
        else rest
      match matchTagAfter body with
      | some afterTag => lazyToGt afterTag
      | none => none
    else none

/-- Fuelled scan implementing `String.prototype.replace` with a global regex
and empty replacement: walk left to right, removing each leftmost match and
resuming after it. Fuel `s.length` always suffices (each step either consumes
the head or a non-empty match). -/
def scanStrip (allowSlash : Bool) : Nat → List Char → List Char
  | 0, s => s
  | _ + 1, [] => []
  | fuel + 1, c :: t =>
    match tagMatch allowSlash (c :: t) with
    | some after => scanStrip allowSlash fuel after
    | none => c :: scanStrip allowSlash fuel t

/-- Model of `sanitizeInput` (`src/utils/security.js` lines 169-178): first
remove opening-form disallowed tags, then remove opening/closing forms
(`<\/?(...)`) from the result of the first pass. -/
def sanitizeInput (s : String) : String :=
  let pass1 := scanStrip false s.data.length s.data
  String.mk (scanStrip true pass1.length pass1)

example : sanitizeInput "hello" = "hello" := by decide
example : sanitizeInput "<script>alert(1)</script>hi" = "alert(1)hi" := by decide
example : sanitizeInput "<</script>script>" = "<script>" := by decide
example : sanitizeInput "<script>" = "" := by decide

/-- Per-instance option block as built by `createInstance`
(`src/controllers/instanceController.js`). Fields are optional because the
request may supply any subset. -/
structure InstanceOptions where
  cmdPref : Option String
  processSelfMessages : Option Bool
  notifyUnauthorized : Option Bool
  maxConversationLength : Option Nat
  showTypingIndicator : Option Bool
  enableAnalytics : Option Bool
deriving DecidableEq

/-- Instance configuration object as the message handler receives it. The
handler (`src/controllers/messageHandler.js`) reads the option flags from the
top level of the object, while `createInstance` nests them under `options`;
both locations are therefore modelled, each possibly absent. -/
structure Config where
  allowedUsers : Option (List String)
  allowedGroups : Option (List String)
  options : Option InstanceOptions
  processSelfMessages : Option Bool
  notifyUnauthorized : Option Bool
  showTypingIndicator : Option Bool
  enableAnalytics : Option Bool
  maxConversationLength : Option Nat
  cmdPref : Option String
  status : String
deriving DecidableEq

/-- Default option block of `createInstance`
(`src/controllers/instanceController.js` lines 66-73). -/
def defaultOptions : InstanceOptions :=
  { cmdPref := some "!bot"
    processSelfMessages := some false
    notifyUnauthorized := some true
    maxConversationLength := some 20
    showTypingIndicator := some true
    enableAnalytics := some false }

/-- Configuration object built by `createInstance`
(`src/controllers/instanceController.js` lines 59-78): `allowedUsers || []`,
`allowedGroups || []`, `options: options || {defaults}`, status CREATED.
The option flags live only under `options`; no top-level copies are made. -/
def mkInstanceConfig (reqUsers reqGroups : Option (List String))
    (reqOpts : Option InstanceOptions) : Config :=
  { allowedUsers := some (reqUsers.getD [])
    allowedGroups := some (reqGroups.getD [])
    options := some (reqOpts.getD defaultOptions)
    processSelfMessages := none
    notifyUnauthorized := none
    showTypingIndicator := none
    enableAnalytics := none
    maxConversationLength := none
    cmdPref := none
    status := "CREATED" }

/-- Model of `isGroupAuthorized` (`src/controllers/messageHandler.js` lines
334-352): deny on absent config; allow on wildcard; else exact membership. -/
def isGroupAuthorized (groupId : String) (config : Option Config) : Bool :=
  match config with
  | none => false
  | some cfg =>
    match cfg.allowedGroups with
    | some groups =>
      if groups.contains "*" then true else groups.contains groupId
    | none => false

/-- Model of `isUserAuthorized` (`src/controllers/messageHandler.js` lines
297-326): deny on absent config; wildcard in `allowedUsers` allows any id;
group ids delegate to `isGroupAuthorized`; otherwise compare ids with the
`@c.us` suffix stripped (JavaScript `replace` removes only the first
occurrence). -/
def isUserAuthorized (userId : String) (config : Option Config) : Bool :=
  match config with
  | none => false
  | some cfg =>
    if (cfg.allowedUsers.map (fun l => l.contains "*")).getD false then true
    else if strContains userId.data "@g.us".data then
      isGroupAuthorized userId config
    else
      match cfg.allowedUsers with
      | some users =>
        let normalizedUserId := replaceFirst userId.data "@c.us".data
        users.any (fun u => replaceFirst u.data "@c.us".data == normalizedUserId)
      | none => false

example : isUserAuthorized "anything"
    (some (mkInstanceConfig (some ["*"]) none none)) = true := by decide
example : isUserAuthorized "5551234567@c.us"
    (some (mkInstanceConfig (some ["5551234567"]) none none)) = true := by decide
example : isUserAuthorized "x" (some (mkInstanceConfig (some []) none none)) = false := by
  decide
example : isGroupAuthorized "g1@g.us"
    (some (mkInstanceConfig none (some ["g2@g.us"]) none)) = false := by decide

/-- JavaScript truthiness of a possibly-absent string (absent or empty is
falsy). -/
def jsTruthyStr : Option String → Bool
  | none => false
  | some s => !(s == "")

/-- Model of `isValidPhoneNumber` (`src/controllers/webhookHandler.js` lines
100-106): strip the first `@c.us`, then require 10-15 digits and nothing
else (regex anchored at both ends). -/
def isValidPhoneNumber (phoneNumber : String) : Bool :=
  let number := replaceFirst phoneNumber.data "@c.us".data
  number.all Char.isDigit && decide (10 ≤ number.length) && decide (number.length ≤ 15)

/-- Outcome of one outbound webhook request. `sendAttempt` records that the
handler reached `client.sendMessage` (200 on success, 500 on send error). -/
inductive WebhookOutcome
  | badRequest (error : String)
  | notFound
  | unavailable
  | sendAttempt (target message : String) (ok : Bool)
deriving DecidableEq

/-- Outbound send request body and route parameter. -/
structure WebhookRequest where
  instanceId : String
  bodyPresent : Bool
  recipient : Option String
  message : Option String
deriving DecidableEq

/-- Model of `webhookHandler` (`src/controllers/webhookHandler.js` lines
13-93): validate route/instance/client/body, sanitize `to` and `message`,
validate the sanitized number, then attempt the send. `instanceFound`,
`clientReady` and `sendOk` stand for the config-store lookup, the runtime
client lookup and the outcome of `client.sendMessage`. -/
def webhookHandler (req : WebhookRequest)
    (instanceFound clientReady sendOk : Bool) : WebhookOutcome :=
  if req.instanceId == "" then .badRequest "Missing instance ID"
  else if !instanceFound then .notFound
  else if !clientReady then .unavailable
  else if !req.bodyPresent then .badRequest "Invalid request body"
  else if !(jsTruthyStr req.recipient) || !(jsTruthyStr req.message) then
    .badRequest "Missing required fields: to and message"
  else
    let sanitizedTo := sanitizeInput (req.recipient.getD "")
    let sanitizedMessage := sanitizeInput (req.message.getD "")
    if !(isValidPhoneNumber sanitizedTo) then
      .badRequest "Invalid phone number format"
    else
      let formattedNumber :=
        if strContains sanitizedTo.data "@c.us".data then sanitizedTo
        else sanitizedTo ++ "@c.us"
      .sendAttempt formattedNumber sanitizedMessage sendOk

example : webhookHandler ⟨"bot1", true, some "abc", some "hello"⟩ true true true
    = .badRequest "Invalid phone number format" := by decide
example : webhookHandler ⟨"bot1", true, some "5551234567", some "hello"⟩ true true true
    = .sendAttempt "5551234567@c.us" "hello" true := by decide
example : webhookHandler ⟨"bot1", true, some "1234567890<script>", some "hi"⟩ true true true
    = .sendAttempt "1234567890@c.us" "hi" true := by decide

/-- One entry of a conversation log: pushed as `{role, content}` (direct) or
`{role, content, author}` (group) by the message handler. `content` is
optional because the fallback chain can produce an undefined reply value. -/
structure ChatMsg where
  role : String
  content : Option String
  author : Option String
deriving DecidableEq

/-- Persisted conversation record (`src/models/conversation.js`): key,
ordered message log and timestamps. -/
structure Conversation where
  userId : String
  messages : List ChatMsg
  createdAt : String
  updatedAt : String
deriving DecidableEq

/-- Fresh empty conversation record as built at
`src/models/conversation.js` lines 29-34 and 53-58. -/
def emptyConversation (userId now : String) : Conversation :=
  { userId := userId, messages := [], createdAt := now, updatedAt := now }

/-- Model of `getConversation` (`src/models/conversation.js` lines 20-60).
The file system, decryption and JSON parsing are external collaborators:
`stored` is the file content if the file exists, `decryptFn`/`parseFn` give
their outcomes, errors modelled as `Except`. The surrounding try/catch maps
any error onto a fresh empty record. -/
def getConversation (stored : Option String) (keyConfigured : Bool)
    (decryptFn : String → Except Unit String)
    (parseFn : String → Except Unit Conversation)
    (userId now : String) : Conversation :=
  match stored with
  | none => emptyConversation userId now
  | some fileContent =>
    match (if keyConfigured then decryptFn fileContent else .ok fileContent) with
    | .error _ => emptyConversation userId now
    | .ok decrypted =>
      match parseFn decrypted with
      | .error _ => emptyConversation userId now
      | .ok conversation => conversation

/-- Runtime and persisted state relevant to `destroyClientInstance`: the
in-memory `clientInstances` map keys, and the persisted per-instance status
(the rest of the stored config does not matter for the destroy claim). -/
structure ServiceState where
  clientInstances : List String
  store : List (String × String)
deriving DecidableEq

/-- Model of `updateInstanceStatus` (`src/models/instance.js` lines 731-744):
look the config up; on a miss return false and change nothing; otherwise set
the status and save. Its internal try/catch means it never throws. -/
def updateInstanceStatus (st : ServiceState) (id status : String) :
    ServiceState × Bool :=
  if (st.store.find? (fun p => p.1 == id)).isSome then
    ({ st with store := st.store.map (fun p => if p.1 == id then (p.1, status) else p) },
      true)
  else (st, false)

/-- Model of `destroyClientInstance` (`src/services/whatsappService.js` lines
457-474). `teardownThrows` is the behaviour of the external
`client.destroy()` call. A throw there jumps to the catch block before the
runtime entry is deleted and before the status update, so the whole cleanup
is skipped and `false` is returned. -/
def destroyClientInstance (st : ServiceState) (instanceId : String)
    (teardownThrows : Bool) : ServiceState × Bool :=
  if st.clientInstances.contains instanceId then
    if teardownThrows then (st, false)
    else
      let st1 := { st with
        clientInstances := st.clientInstances.filter (fun x => !(x == instanceId)) }
      let st2 := (updateInstanceStatus st1 instanceId "DESTROYED").1
      (st2, true)
  else
    ((updateInstanceStatus st instanceId "DESTROYED").1, true)

example :
    destroyClientInstance ⟨["bot1"], [("bot1", "CONNECTED")]⟩ "bot1" true
      = (⟨["bot1"], [("bot1", "CONNECTED")]⟩, false) := by decide
example :
    destroyClientInstance ⟨["bot1"], [("bot1", "CONNECTED")]⟩ "bot1" false
      = (⟨[], [("bot1", "DESTROYED")]⟩, true) := by decide

/-- Response body of the primary (Tier-1) n8n call: only its `output` field is
inspected by the handler. -/
structure N8nResp where
  output : Option String
deriving DecidableEq

/-- Response body of the fallback-model (Tier-2) call: the handler accepts the
first truthy of `text`, `message`, `content`. -/
structure Tier2Resp where
  text : Option String
  message : Option String
  content : Option String
deriving DecidableEq

/-- Observable side effects of one inbound-message handling run. -/
inductive Effect
  | n8nCall
  | tier2Call (prompt : List ChatMsg)
  | typing
  | replyAttempt (content : Option String) (delivered : Bool)
  | saveConv (key : String) (messages : List ChatMsg)
  | analytics
deriving DecidableEq

/-- Behaviour of the external collaborators during one inbound-message run:
outcome of the Tier-1 n8n call, outcome of the Tier-2 `executeAiModel` call
(any of its failure modes, including a missing fallback webhook path, is the
error case), which reply contents fail to send, and the conversation record
returned by the store. -/
structure Oracles where
  n8n : Except Unit N8nResp
  tier2 : Except Unit Tier2Resp
  replyFails : Option String → Bool
  loadedMessages : List ChatMsg

/-- JavaScript `a || b` on possibly-absent strings. -/
def jsOr (a b : Option String) : Option String :=
  if jsTruthyStr a then a else b

/-- Tier-3 static reply (`src/controllers/messageHandler.js` line 396). -/
def techDifficultiesText : String :=
  "I'm currently experiencing technical difficulties. Please try again later or contact support if the issue persists."

/-- System instruction of the Tier-2 prompt (line 364). -/
def fallbackSystemText : String :=
  "You are a helpful WhatsApp assistant. Be concise and helpful."

/-- Model of `handleFallbackAi` (`src/controllers/messageHandler.js` lines
361-402): build the Tier-2 prompt (system message, last five turns, current
turn), try `executeAiModel` once; on success take `text || message ||
content`; if the call throws, the inner catch returns the static Tier-3
string. The prompt assembly cannot throw on typed data, so the outer catch is
unreachable; either way no exception escapes. -/
def handleFallbackAi (o : Oracles) (message : String) (conv : List ChatMsg) :
    List Effect × Except Unit (Option String) :=
  let prompt := ⟨"system", some fallbackSystemText, none⟩ ::
    ((conv.drop (conv.length - 5)).map (fun msg => ⟨msg.role, msg.content, none⟩))
    ++ [⟨"user", some message, none⟩]
  ([Effect.tier2Call prompt],
    match o.tier2 with
    | .ok r => .ok (jsOr r.text (jsOr r.message r.content))
    | .error _ => .ok (some techDifficultiesText))

/-- A reply attempt and whether it is delivered (the oracle decides which
contents fail to send). -/
def replyEffect (o : Oracles) (c : Option String) : Effect :=
  .replyAttempt c (!(o.replyFails c))

/-- The catch branch of the AI block (lines 108-120, group version 259-271):
run the fallback chain, reply with its result, push the turn pair. A reply
failure here escapes to the enclosing catch. -/
def aiCatchPhase (o : Oracles) (content : String) (authorTag : Option String)
    (msgs : List ChatMsg) (effs : List Effect) :
    List Effect × List ChatMsg × Option Unit :=
  let (fbEffs, fb) := handleFallbackAi o content msgs
  match fb with
  | .error _ => (effs ++ fbEffs, msgs, some ())
  | .ok fbVal =>
    let effs2 := effs ++ fbEffs ++ [replyEffect o fbVal]
    if o.replyFails fbVal then (effs2, msgs, some ())
    else
      (effs2, msgs ++ [⟨"user", some content, authorTag⟩, ⟨"assistant", fbVal, none⟩],
        none)

/-- The AI try block (lines 82-120, group version 235-271): call n8n once; on
a truthy `output` reply with it and push the turn pair; otherwise (or if the
call or the reply throws) fall into the fallback path, whose own failures are
routed through the catch branch. -/
def aiPhase (o : Oracles) (content : String) (authorTag : Option String)
    (msgs : List ChatMsg) : List Effect × List ChatMsg × Option Unit :=
  match o.n8n with
  | .error _ => aiCatchPhase o content authorTag msgs [Effect.n8nCall]
  | .ok r =>
    if jsTruthyStr r.output then
      let effs := [Effect.n8nCall, replyEffect o r.output]
      if o.replyFails r.output then aiCatchPhase o content authorTag msgs effs
      else
        (effs,
          msgs ++ [⟨"user", some content, authorTag⟩, ⟨"assistant", r.output, none⟩],
          none)
    else
      let (fbEffs, fb) := handleFallbackAi o content msgs
      match fb with
      | .error _ => aiCatchPhase o content authorTag msgs ([Effect.n8nCall] ++ fbEffs)
      | .ok fbVal =>
        let effs := [Effect.n8nCall] ++ fbEffs ++ [replyEffect o fbVal]
        if o.replyFails fbVal then aiCatchPhase o content authorTag msgs effs
        else
          (effs,
            msgs ++ [⟨"user", some content, authorTag⟩, ⟨"assistant", fbVal, none⟩],
            none)

/-- Effective trim bound at `config.maxConversationLength || 20` (lines 123,
274): the handler reads the top-level field; absent or zero falls back to 20. -/
def cfgEffMax (cfg : Config) : Nat :=
  match cfg.maxConversationLength with
  | some n => if n = 0 then 20 else n
  | none => 20

/-- The trim of lines 124-126 / 275-277: `messages.slice(-maxLength)` keeps
the most recent `maxLength` entries when the log is longer. -/
def trimMessages (cfg : Config) (msgs : List ChatMsg) : List ChatMsg :=
  if msgs.length > cfgEffMax cfg then msgs.drop (msgs.length - cfgEffMax cfg) else msgs

/-- One completed save as performed by the handler: push the `{user,
assistant}` turn pair, then trim (the composition of the pushes inside the AI
block with lines 122-129). -/
def saveStep (cfg : Config) (msgs : List ChatMsg) (userMsg assistantMsg : ChatMsg) :
    List ChatMsg :=
  trimMessages cfg (msgs ++ [userMsg, assistantMsg])

/-- Effective command marker at `config.commandPrefix || '!bot'` (lines 175,
200): top-level field; absent or empty falls back to `!bot`. -/
def cfgEffPref (cfg : Config) : String :=
  match cfg.cmdPref with
  | some p => if p = "" then "!bot" else p
  | none => "!bot"

/-- First-match removal of the mention regex `/@\d+/` (line 195): an `@`
followed by a maximal non-empty digit run. -/
def removeMention : List Char → List Char
  | [] => []
  | c :: t =>
    if c = '@' ∧ t.takeWhile Char.isDigit ≠ [] then t.dropWhile Char.isDigit
    else c :: removeMention t

/-- Strip the command marker when it occurs at the start (the anchored regex
of lines 199-202, literal for metacharacter-free markers such as `!bot`). -/
def stripAtStart (s pat : List Char) : List Char :=
  if pat.isPrefixOf s then s.drop pat.length else s

/-- Inbound message event fields used by the handler. -/
structure Msg where
  fromMe : Bool
  sender : String
  author : Option String
  body : String
  mentionedIds : List String
deriving DecidableEq

/-- Group-path apology (line 284). -/
def groupApologyText : String := "I encountered an error while processing your message."

/-- Denial notice of lines 33-36. -/
def unauthorizedText : String :=
  "I'm sorry, you are not authorized to use this service. Please contact the administrator if you believe this is an error."

/-- Top-level apology of lines 141-144. -/
def errorApologyText : String :=
  "I encountered an error while processing your message. Please try again later."

/-- Try body of `handleGroupMessage` (lines 160-280): group authorization
gate, mention/command gate, strip and sanitize, then the AI block, trim and
save. An escaping error (a failed reply inside the AI catch branch) is
reported to the group-level catch. -/
def groupInner (o : Oracles) (botId instanceId : String) (m : Msg) (cfg : Config) :
    List Effect × Option Unit :=
  let groupId := m.sender
  if !(isGroupAuthorized groupId (some cfg)) then ([], none)
  else
    let isBotMentioned := m.mentionedIds.contains botId
    let hasCmd := m.body.startsWith (cfgEffPref cfg)
    if !isBotMentioned && !hasCmd then ([], none)
    else
      let typingEffs :=
        if cfg.showTypingIndicator == some true then [Effect.typing] else []
      let content1 :=
        if isBotMentioned then jsTrim (removeMention m.body.data) else m.body.data
      let content2 :=
        if hasCmd then jsTrim (stripAtStart content1 (cfgEffPref cfg).data) else content1
      let content3 := sanitizeInput (String.mk content2)
      if jsTrim content3.data = [] then (typingEffs, none)
      else
        let convId := instanceId ++ "-" ++ groupId
        let authorId := m.author.getD ""
        let (aiEffs, msgs1, err) := aiPhase o content3 (some authorId) o.loadedMessages
        match err with
        | some _ => (typingEffs ++ aiEffs, some ())
        | none =>
          let msgs2 := trimMessages cfg msgs1
          (typingEffs ++ aiEffs ++ [Effect.saveConv convId msgs2], none)

/-- Model of `handleGroupMessage` (lines 159-289) including its own
try/catch: an escaping error triggers the group apology reply, whose own
failure is swallowed, so the group path never throws to its caller. -/
def handleGroupMessage (o : Oracles) (botId instanceId : String) (m : Msg)
    (cfg : Config) : List Effect :=
  match groupInner o botId instanceId m cfg with
  | (effs, none) => effs
  | (effs, some _) => effs ++ [replyEffect o (some groupApologyText)]

/-- Try body of `handleIncomingMessage` (lines 16-134): self-message gate,
authorization gate (with optional denial notice), group dispatch, sanitize,
typing indicator, AI block, trim, save, analytics. The second component
reports an error escaping to the top-level catch. -/
def innerPipeline (o : Oracles) (botId instanceId : String) (m : Msg) (cfg : Config) :
    List Effect × Option Unit :=
  if m.fromMe && !(cfg.processSelfMessages == some true) then ([], none)
  else
    let sender := m.sender
    if !(isUserAuthorized sender (some cfg)) then
      if cfg.notifyUnauthorized == some true then
        ([replyEffect o (some unauthorizedText)],
          if o.replyFails (some unauthorizedText) then some () else none)
      else ([], none)
    else if strContains sender.data "@g.us".data then
      (handleGroupMessage o botId instanceId m cfg, none)
    else
      let content := sanitizeInput m.body
      if jsTrim content.data = [] then ([], none)
      else
        let convId := instanceId ++ "-" ++ sender
        let typingEffs :=
          if cfg.showTypingIndicator == some true then [Effect.typing] else []
        let (aiEffs, msgs1, err) := aiPhase o content none o.loadedMessages
        match err with
        | some _ => (typingEffs ++ aiEffs, some ())
        | none =>
          let msgs2 := trimMessages cfg msgs1
          let anaEffs :=
            if cfg.enableAnalytics == some true then [Effect.analytics] else []
          (typingEffs ++ aiEffs ++ [Effect.saveConv convId msgs2] ++ anaEffs, none)

/-- Model of `handleIncomingMessage` (lines 15-149) including the top-level
try/catch: an escaping error triggers a best-effort apology reply whose own
failure is caught, so the handler always returns normally (`Except.ok`). -/
def handleIncomingMessage (o : Oracles) (botId instanceId : String) (m : Msg)
    (cfg : Config) : Except Unit (List Effect) :=
  match innerPipeline o botId instanceId m cfg with
  | (effs, none) => .ok effs
  | (effs, some _) => .ok (effs ++ [replyEffect o (some errorApologyText)])

instance {ε α : Type} [DecidableEq ε] [DecidableEq α] : DecidableEq (Except ε α) :=
  fun x y =>
    match x, y with
    | .ok a, .ok b =>
      if h : a = b then .isTrue (by rw [h]) else .isFalse (by simp [h])
    | .error a, .error b =>
      if h : a = b then .isTrue (by rw [h]) else .isFalse (by simp [h])
    | .ok _, .error _ => .isFalse (by simp)
    | .error _, .ok _ => .isFalse (by simp)

/-- Oracle of a run where Tier 1 answers `{output:"hi"}` and everything else
behaves normally. -/
def oracleHi : Oracles :=
  { n8n := .ok ⟨some "hi"⟩, tier2 := .error (), replyFails := fun _ => false,
    loadedMessages := [] }

/-- Oracle of a run where both Tier 1 and Tier 2 fail. -/
def oracleBothFail : Oracles :=
  { n8n := .error (), tier2 := .error (), replyFails := fun _ => false,
    loadedMessages := [] }

/-- A plain authorized direct message. -/
def msgDirect : Msg :=
  { fromMe := false, sender := "5551234567@c.us", author := none, body := "hello",
    mentionedIds := [] }

example :
    handleIncomingMessage oracleHi "bot" "bot1" msgDirect
      (mkInstanceConfig (some ["*"]) none none)
    = .ok [Effect.n8nCall, .replyAttempt (some "hi") true,
        .saveConv "bot1-5551234567@c.us"
          [⟨"user", some "hello", none⟩, ⟨"assistant", some "hi", none⟩]] := by decide

example :
    handleIncomingMessage oracleBothFail "bot" "bot1" msgDirect
      (mkInstanceConfig (some ["*"]) none none)
    = .ok [Effect.n8nCall,
        .tier2Call [⟨"system", some fallbackSystemText, none⟩, ⟨"user", some "hello", none⟩],
        .replyAttempt (some techDifficultiesText) true,
        .saveConv "bot1-5551234567@c.us"
          [⟨"user", some "hello", none⟩,
           ⟨"assistant", some techDifficultiesText, none⟩]] := by decide

example :
    handleIncomingMessage oracleHi "bot" "bot1"
      { fromMe := false, sender := "g1@g.us", author := some "u1@c.us", body := "!bot hi",
        mentionedIds := [] }
      (mkInstanceConfig (some []) (some ["g2@g.us"]) none)
    = .ok [] := by decide

/-! Supporting lemmas. -/

theorem tagMatch_none_of_head_ne {a : Bool} {c : Char} {t : List Char}
    (h : c ≠ '<') : tagMatch a (c :: t) = none := by
  simp [tagMatch, h]

theorem scanStrip_of_no_lt {a : Bool} :
    ∀ (fuel : Nat) (s : List Char), '<' ∉ s → scanStrip a fuel s = s := by
  intro fuel
  induction fuel with
  | zero => intro s _; rfl
  | succ n ih =>
    intro s hs
    match s with
    | [] => rfl
    | c :: t =>
      have hc : c ≠ '<' := fun h => hs (h ▸ List.mem_cons_self c t)
      have ht : '<' ∉ t := fun h => hs (List.mem_cons_of_mem c h)
      simp [scanStrip, tagMatch_none_of_head_ne hc, ih t ht]

theorem sanitizeInput_id_of_no_lt {s : String} (h : '<' ∉ s.data) :
    sanitizeInput s = s := by
  have h1 := scanStrip_of_no_lt (a := false) s.data.length s.data h
  have h2 := scanStrip_of_no_lt (a := true) s.data.length s.data h
  simp only [sanitizeInput, h1, h2]

/-! Claim theorems. -/

/-- C3 counterexample: the sanitizer is not idempotent. On the input
`<</script>script>` the first application removes the inner `</script>` and
reassembles a fresh `<script>` marker, which a second application removes. -/
theorem sanitizeInput_not_idempotent :
    sanitizeInput (sanitizeInput "<</script>script>")
      ≠ sanitizeInput "<</script>script>" := by decide

/-- C3 (amended): sanitization is idempotent on every input containing no
`<` character (on such inputs it is the identity); in general a second
application can strip further, reassembled tag markers. -/
theorem sanitizeInput_idempotent_no_marker (s : String) (h : '<' ∉ s.data) :
    sanitizeInput (sanitizeInput s) = sanitizeInput s := by
  rw [sanitizeInput_id_of_no_lt h, sanitizeInput_id_of_no_lt h]

/-- Witness for the amended C3 at a concrete input. -/
theorem sanitizeInput_idempotent_no_marker_witness :
    '<' ∉ "hello world".data ∧
      sanitizeInput (sanitizeInput "hello world") = sanitizeInput "hello world" :=
  ⟨by decide, sanitizeInput_idempotent_no_marker "hello world" (by decide)⟩

/-- C8 counterexample: a request whose raw `to` value, after stripping the
network suffix, does not match the 10-15-digit pattern, yet is not rejected:
the handler validates the sanitized value, so the tag is stripped first and a
send is attempted. -/
theorem webhook_invalid_raw_number_still_sends :
    isValidPhoneNumber "1234567890<script>" = false ∧
    webhookHandler ⟨"bot1", true, some "1234567890<script>", some "hi"⟩ true true true
      = .sendAttempt "1234567890@c.us" "hi" true := by decide

/-- C8 (amended): whenever the sanitized `to` value fails the 10-15-digit
check (after stripping the network suffix), the handler answers 400 with
"Invalid phone number format" and no send is attempted, provided the earlier
gates pass (instance id present, instance found, client ready, body present,
`to` and `message` truthy). -/
theorem webhook_rejects_invalid_sanitized_number (req : WebhookRequest)
    (found ready sendOk : Bool)
    (hid : (req.instanceId == "") = false)
    (hfound : found = true) (hready : ready = true)
    (hbody : req.bodyPresent = true)
    (hto : jsTruthyStr req.recipient = true)
    (hmsg : jsTruthyStr req.message = true)
    (hinvalid : isValidPhoneNumber (sanitizeInput (req.recipient.getD "")) = false) :
    webhookHandler req found ready sendOk
      = .badRequest "Invalid phone number format" := by
  simp [webhookHandler, hid, hfound, hready, hbody, hto, hmsg, hinvalid]

/-- Witness for the amended C8 at the spec's example `to="abc"`. -/
theorem webhook_rejects_invalid_sanitized_number_witness :
    isValidPhoneNumber (sanitizeInput ((some "abc").getD "")) = false ∧
    webhookHandler ⟨"bot1", true, some "abc", some "hello"⟩ true true true
      = .badRequest "Invalid phone number format" :=
  ⟨by decide,
    webhook_rejects_invalid_sanitized_number
      ⟨"bot1", true, some "abc", some "hello"⟩ true true true
      (by decide) rfl rfl rfl (by decide) (by decide) (by decide)⟩

/-- C2 counterexample: with a runtime entry present and a teardown that
throws, `destroyClientInstance` leaves the runtime entry in place and the
persisted status untouched (the catch block skips the whole cleanup), and
returns false. -/
theorem destroy_teardown_throw_skips_cleanup :
    destroyClientInstance ⟨["bot1"], [("bot1", "CONNECTED")]⟩ "bot1" true
      = (⟨["bot1"], [("bot1", "CONNECTED")]⟩, false) := by decide

theorem listContains_iff_mem (l : List String) (a : String) :
    l.contains a = true ↔ a ∈ l := by
  rw [List.contains_eq_any_beq, List.any_eq_true]
  constructor
  · rintro ⟨x, hx, hbeq⟩
    rw [beq_iff_eq] at hbeq
    exact hbeq ▸ hx
  · intro h
    exact ⟨a, h, by simp⟩

theorem updateInstanceStatus_keeps_clients (st : ServiceState) (id status : String) :
    ((updateInstanceStatus st id status).1).clientInstances = st.clientInstances := by
  unfold updateInstanceStatus
  by_cases h : (st.store.find? (fun p => p.1 == id)).isSome <;> simp [h]

theorem updateInstanceStatus_destroys (st : ServiceState) (id : String) :
    ∀ s, (id, s) ∈ ((updateInstanceStatus st id "DESTROYED").1).store →
      s = "DESTROYED" := by
  intro s hs
  unfold updateInstanceStatus at hs
  by_cases hFound : (st.store.find? (fun p => p.1 == id)).isSome
  · simp only [hFound, if_true] at hs
    rcases List.mem_map.mp hs with ⟨p, _, hp⟩
    by_cases hpid : (p.1 == id) = true
    · rw [if_pos hpid] at hp
      exact (congrArg Prod.snd hp).symm
    · rw [if_neg hpid] at hp
      refine absurd ?_ hpid
      rw [hp]
      simp
  · simp only [hFound, if_false] at hs
    have hnone : st.store.find? (fun p => p.1 == id) = none :=
      Option.not_isSome_iff_eq_none.mp hFound
    have := List.find?_eq_none.mp hnone (id, s) hs
    simp at this

theorem destroy_no_throw_eq (st : ServiceState) (id : String) :
    destroyClientInstance st id false =
      if st.clientInstances.contains id then
        ((updateInstanceStatus
            { st with clientInstances :=
                st.clientInstances.filter (fun x => !(x == id)) } id "DESTROYED").1,
          true)
      else ((updateInstanceStatus st id "DESTROYED").1, true) := by
  unfold destroyClientInstance
  by_cases h : st.clientInstances.contains id = true <;> simp [h]

/-- C2 (amended): when the teardown does not throw, `destroyClientInstance`
removes the runtime entry, sets every persisted status stored for the id to
DESTROYED and returns true; but when a runtime entry exists and the teardown
throws, the runtime entry and the persisted status are left unchanged and
false is returned. -/
theorem destroy_cleanup_amended (st : ServiceState) (id : String) :
    (id ∉ (destroyClientInstance st id false).1.clientInstances
      ∧ (∀ s, (id, s) ∈ (destroyClientInstance st id false).1.store → s = "DESTROYED")
      ∧ (destroyClientInstance st id false).2 = true)
    ∧ (id ∈ st.clientInstances → destroyClientInstance st id true = (st, false)) := by
  constructor
  · rw [destroy_no_throw_eq]
    by_cases hMem : st.clientInstances.contains id = true
    · rw [if_pos hMem]
      refine ⟨?_, fun s hs => updateInstanceStatus_destroys _ id s hs, rfl⟩
      rw [updateInstanceStatus_keeps_clients]
      intro hIn
      rcases List.mem_filter.mp hIn with ⟨_, hkeep⟩
      simp at hkeep
    · rw [if_neg (by simpa using hMem)]
      refine ⟨?_, fun s hs => updateInstanceStatus_destroys _ id s hs, rfl⟩
      rw [updateInstanceStatus_keeps_clients]
      exact fun hIn => hMem ((listContains_iff_mem _ _).mpr hIn)
  · intro hIn
    have hMem : st.clientInstances.contains id = true :=
      (listContains_iff_mem _ _).mpr hIn
    simp only [destroyClientInstance, hMem, if_true]

/-- Witness for the amended C2 at a concrete state. -/
theorem destroy_cleanup_amended_witness :
    "bot1" ∈ (⟨["bot1"], [("bot1", "CONNECTED")]⟩ : ServiceState).clientInstances ∧
    destroyClientInstance ⟨["bot1"], [("bot1", "CONNECTED")]⟩ "bot1" true
      = (⟨["bot1"], [("bot1", "CONNECTED")]⟩, false) :=
  ⟨by decide,
    (destroy_cleanup_amended ⟨["bot1"], [("bot1", "CONNECTED")]⟩ "bot1").2 (by decide)⟩

/-- C10: `getConversation` always returns a record with a message list and
never propagates a read error: an absent file, a decryption failure or a
parse failure each yield a fresh empty record, and only a successful parse
returns the stored record. -/
theorem getConversation_errors_give_fresh (stored : Option String)
    (keyConfigured : Bool) (decryptFn : String → Except Unit String)
    (parseFn : String → Except Unit Conversation) (userId now : String) :
    (stored = none →
      getConversation stored keyConfigured decryptFn parseFn userId now
        = emptyConversation userId now) ∧
    (∀ c, stored = some c →
      (if keyConfigured then decryptFn c else .ok c) = .error () →
      getConversation stored keyConfigured decryptFn parseFn userId now
        = emptyConversation userId now) ∧
    (∀ c d, stored = some c →
      (if keyConfigured then decryptFn c else .ok c) = .ok d →
      parseFn d = .error () →
      getConversation stored keyConfigured decryptFn parseFn userId now
        = emptyConversation userId now) ∧
    (∀ c d conv, stored = some c →
      (if keyConfigured then decryptFn c else .ok c) = .ok d →
      parseFn d = .ok conv →
      getConversation stored keyConfigured decryptFn parseFn userId now = conv) := by
  refine ⟨fun h => by rw [h]; rfl, ?_, ?_, ?_⟩
  · intro c hc hdec
    rw [hc]
    simp [getConversation, hdec]
  · intro c d hc hdec hparse
    rw [hc]
    simp [getConversation, hdec, hparse]
  · intro c d conv hc hdec hparse
    rw [hc]
    simp [getConversation, hdec, hparse]

/-- C4: the authorization evaluator, rule by rule in the source's order: a
wildcard in `allowedUsers` authorizes any id; an empty `allowedUsers` list
with no applicable group grant denies; group ids (when no user wildcard
applies) delegate to `isGroupAuthorized`; `isGroupAuthorized` holds exactly
when `allowedGroups` contains the wildcard or the group id itself; an absent
config denies in both functions. -/
theorem authorization_rules (id : String) (cfg : Config) :
    (isUserAuthorized id none = false) ∧
    (isGroupAuthorized id none = false) ∧
    (∀ users, cfg.allowedUsers = some users → "*" ∈ users →
      isUserAuthorized id (some cfg) = true) ∧
    (cfg.allowedUsers = some [] → isGroupAuthorized id (some cfg) = false →
      isUserAuthorized id (some cfg) = false) ∧
    ((∀ users, cfg.allowedUsers = some users → "*" ∉ users) →
      strContains id.data "@g.us".data = true →
      isUserAuthorized id (some cfg) = isGroupAuthorized id (some cfg)) ∧
    (isGroupAuthorized id (some cfg) = true ↔
      ∃ groups, cfg.allowedGroups = some groups ∧ ("*" ∈ groups ∨ id ∈ groups)) := by
  refine ⟨rfl, rfl, ?_, ?_, ?_, ?_⟩
  · intro users hu hstar
    simp [isUserAuthorized, hu, hstar]
  · intro hu hg
    simp [isUserAuthorized, hu, hg]
  · intro hstar hgroup
    cases hau : cfg.allowedUsers with
    | none => simp [isUserAuthorized, hau, hgroup]
    | some users =>
      have hnw : "*" ∉ users := hstar users hau
      simp [isUserAuthorized, hau, hgroup, hnw]
  · cases hag : cfg.allowedGroups with
    | none => simp [isGroupAuthorized, hag]
    | some groups =>
      by_cases hw : groups.contains "*" = true
      · simp [isGroupAuthorized, hag, hw, (listContains_iff_mem _ _).mp hw]
      · have hnw : "*" ∉ groups := fun h => hw ((listContains_iff_mem _ _).mpr h)
        simp [isGroupAuthorized, hag, hw, hnw, listContains_iff_mem]

/-- Witness for C4 at concrete inputs. -/
theorem authorization_rules_witness :
    isUserAuthorized "anyone@c.us"
      (some (mkInstanceConfig (some ["*"]) none none)) = true ∧
    isUserAuthorized "anyone@c.us"
      (some (mkInstanceConfig (some []) none none)) = false :=
  ⟨(authorization_rules "anyone@c.us" (mkInstanceConfig (some ["*"]) none none)).2.2.1
      ["*"] rfl (by decide),
    (authorization_rules "anyone@c.us" (mkInstanceConfig (some []) none none)).2.2.2.1
      rfl (by decide)⟩

/-- Witness for C10: a stored file whose decryption fails yields the fresh
empty record. -/
theorem getConversation_errors_give_fresh_witness :
    getConversation (some "ciphertext") true (fun _ => .error ())
      (fun _ => .error ()) "u1" "t0" = emptyConversation "u1" "t0" :=
  (getConversation_errors_give_fresh (some "ciphertext") true (fun _ => .error ())
    (fun _ => .error ()) "u1" "t0").2.1 "ciphertext" rfl (by simp)

/-- The message list written by the save effect of a run, if any. -/
def savedMessages : List Effect → Option (List ChatMsg)
  | [] => none
  | .saveConv _ ms :: _ => some ms
  | _ :: t => savedMessages t

/-- One complete inbound run over a direct message with a successful Tier-1
answer, returning the conversation it persists (used to chain runs, each run
loading what the previous one saved). -/
def runSave (cfg : Config) (msgs : List ChatMsg) (body output : String) :
    List ChatMsg :=
  match handleIncomingMessage
      { n8n := .ok ⟨some output⟩, tier2 := .error (),
        replyFails := fun _ => false, loadedMessages := msgs }
      "bot" "bot1"
      { fromMe := false, sender := "5551234567@c.us", author := none, body := body,
        mentionedIds := [] } cfg with
  | .ok effs => (savedMessages effs).getD msgs
  | .error _ => msgs

/-- C1 (code-bug exhibit): an instance created with
`options.maxConversationLength = 5` is trimmed against the top-level
`config.maxConversationLength`, which `createInstance` never sets, so the
effective bound is the default 20: after three completed inbound runs the
persisted conversation holds six messages, exceeding the configured bound of
five. -/
theorem trim_ignores_configured_max_length :
    let opts : InstanceOptions :=
      { cmdPref := none, processSelfMessages := none, notifyUnauthorized := none,
        maxConversationLength := some 5, showTypingIndicator := none,
        enableAnalytics := none }
    let cfg := mkInstanceConfig (some ["*"]) none (some opts)
    cfg.options = some opts ∧ cfg.maxConversationLength = none ∧
    cfgEffMax cfg = 20 ∧
    (runSave cfg (runSave cfg (runSave cfg [] "m1" "r1") "m2" "r2") "m3" "r3").length
      = 6 := by decide

/-- C5: if the Tier-2 call fails (for any of its failure modes, including a
missing fallback webhook path), `handleFallbackAi` returns the fixed
technical-difficulties string; and in every case it returns normally rather
than raising. -/
theorem fallback_chain_static_tier (o : Oracles) (message : String)
    (conv : List ChatMsg) :
    (∃ v, (handleFallbackAi o message conv).2 = .ok v) ∧
    (o.tier2 = .error () →
      (handleFallbackAi o message conv).2 = .ok (some techDifficultiesText)) := by
  constructor
  · cases h : o.tier2 with
    | ok r =>
      exact ⟨jsOr r.text (jsOr r.message r.content), by simp [handleFallbackAi, h]⟩
    | error e => exact ⟨some techDifficultiesText, by simp [handleFallbackAi, h]⟩
  · intro h
    simp [handleFallbackAi, h]

/-- Witness for C5: both tiers failing yields the static string. -/
theorem fallback_chain_static_tier_witness :
    (handleFallbackAi oracleBothFail "hello" []).2
      = .ok (some techDifficultiesText) :=
  (fallback_chain_static_tier oracleBothFail "hello" []).2 rfl

/-- C9: the inbound handler always returns normally: every run is `.ok`, and
when the try body reports an escaping error the handler returns normally
after attempting the best-effort apology reply (whose own failure is also
caught, being recorded as an undelivered attempt). -/
theorem inbound_never_raises (o : Oracles) (botId instanceId : String) (m : Msg)
    (cfg : Config) :
    (∃ effs, handleIncomingMessage o botId instanceId m cfg = .ok effs) ∧
    (∀ effs, innerPipeline o botId instanceId m cfg = (effs, some ()) →
      handleIncomingMessage o botId instanceId m cfg
        = .ok (effs ++ [replyEffect o (some errorApologyText)])) := by
  rcases h : innerPipeline o botId instanceId m cfg with ⟨effs, err⟩
  cases err with
  | none =>
    refine ⟨⟨effs, by simp [handleIncomingMessage, h]⟩, ?_⟩
    intro effs' h'
    simp at h'
  | some u =>
    refine ⟨⟨effs ++ [replyEffect o (some errorApologyText)],
      by simp [handleIncomingMessage, h]⟩, ?_⟩
    intro effs' h'
    simp only [Prod.mk.injEq] at h'
    rw [← h'.1]
    simp [handleIncomingMessage, h]

/-- Oracle for a run where every reply attempt fails to send. -/
def oracleAllRepliesFail : Oracles :=
  { n8n := .error (), tier2 := .error (), replyFails := fun _ => true,
    loadedMessages := [] }

/-- A config whose handler-visible `notifyUnauthorized` flag is set, to reach
the denial-notice reply from the unauthorized branch. -/
def cfgNotify : Config :=
  { mkInstanceConfig (some []) none none with notifyUnauthorized := some true }

/-- Reply contents attempted during a run. -/
def replyContents (effs : List Effect) : List (Option String) :=
  effs.filterMap (fun e => match e with | .replyAttempt c _ => some c | _ => none)

/-- Whether the Tier-2 fallback model was called during a run. -/
def hasTier2Call (effs : List Effect) : Bool :=
  effs.any (fun e => match e with | .tier2Call _ => true | _ => false)

/-- Effect trace of a direct inbound run whose Tier-1 call answers
`{output:"hi"}` and whose reply is delivered. -/
def tier1RunEffects (o : Oracles) (instanceId : String) (m : Msg) (cfg : Config) :
    List Effect :=
  (if cfg.showTypingIndicator == some true then [Effect.typing] else [])
    ++ ([Effect.n8nCall, Effect.replyAttempt (some "hi") true]
      ++ [Effect.saveConv (instanceId ++ "-" ++ m.sender)
          (trimMessages cfg (o.loadedMessages
            ++ [⟨"user", some (sanitizeInput m.body), none⟩,
                ⟨"assistant", some "hi", none⟩]))])
    ++ (if cfg.enableAnalytics == some true then [Effect.analytics] else [])

/-- Effect trace of a group inbound run (bot mentioned, no command marker)
whose Tier-1 call answers `{output:"hi"}` and whose reply is delivered. -/
def tier1GroupRunEffects (o : Oracles) (instanceId : String) (m : Msg)
    (cfg : Config) : List Effect :=
  (if cfg.showTypingIndicator == some true then [Effect.typing] else [])
    ++ ([Effect.n8nCall, Effect.replyAttempt (some "hi") true]
      ++ [Effect.saveConv (instanceId ++ "-" ++ m.sender)
          (trimMessages cfg (o.loadedMessages
            ++ [⟨"user",
                  some (sanitizeInput (String.mk (jsTrim (removeMention m.body.data)))),
                  some (m.author.getD "")⟩,
                ⟨"assistant", some "hi", none⟩]))])

/-- C6: on any inbound message that passes the gates — direct, or group with
the bot mentioned — if the Tier-1 call returns `{output:"hi"}` (a truthy
output field) and the reply is delivered, the run replies exactly "hi" and
never invokes the Tier-2 fallback model (and hence never uses the Tier-3
static string). -/
theorem tier1_success_skips_fallback (o : Oracles) (botId instanceId : String)
    (m : Msg) (cfg : Config)
    (hn8n : o.n8n = .ok ⟨some "hi"⟩)
    (hreply : o.replyFails (some "hi") = false)
    (hself : m.fromMe = false) :
    (isUserAuthorized m.sender (some cfg) = true →
      strContains m.sender.data "@g.us".data = false →
      jsTrim (sanitizeInput m.body).data ≠ [] →
      ∃ effs, handleIncomingMessage o botId instanceId m cfg = .ok effs ∧
        replyContents effs = [some "hi"] ∧ hasTier2Call effs = false) ∧
    (strContains m.sender.data "@g.us".data = true →
      isGroupAuthorized m.sender (some cfg) = true →
      m.mentionedIds.contains botId = true →
      m.body.startsWith (cfgEffPref cfg) = false →
      jsTrim (sanitizeInput (String.mk (jsTrim (removeMention m.body.data)))).data ≠ [] →
      ∃ effs, handleIncomingMessage o botId instanceId m cfg = .ok effs ∧
        replyContents effs = [some "hi"] ∧ hasTier2Call effs = false) := by
  have htruthy : jsTruthyStr (some "hi") = true := by decide
  constructor
  · intro hauth hgroup hbody
    have hpipe : innerPipeline o botId instanceId m cfg
        = (tier1RunEffects o instanceId m cfg, none) := by
      simp [innerPipeline, aiPhase, tier1RunEffects, replyEffect, hn8n, hreply, hself,
        hauth, hgroup, hbody, htruthy]
    have hrun : handleIncomingMessage o botId instanceId m cfg
        = .ok (tier1RunEffects o instanceId m cfg) := by
      simp [handleIncomingMessage, hpipe]
    refine ⟨tier1RunEffects o instanceId m cfg, hrun, ?_, ?_⟩
    · by_cases hty : cfg.showTypingIndicator == some true <;>
        by_cases han : cfg.enableAnalytics == some true <;>
        simp [tier1RunEffects, replyContents, hty, han]
    · by_cases hty : cfg.showTypingIndicator == some true <;>
        by_cases han : cfg.enableAnalytics == some true <;>
        simp [tier1RunEffects, hasTier2Call, hty, han]
  · intro hgroup hGA hmention hnc hcontent
    have hauth : isUserAuthorized m.sender (some cfg) = true := by
      cases hW : (cfg.allowedUsers.map (fun l => l.contains "*")).getD false <;>
        simp [isUserAuthorized, hW, hgroup, hGA]
    have hmem : botId ∈ m.mentionedIds := (listContains_iff_mem _ _).mp hmention
    have hginner : groupInner o botId instanceId m cfg
        = (tier1GroupRunEffects o instanceId m cfg, none) := by
      simp [groupInner, aiPhase, tier1GroupRunEffects, replyEffect, hn8n, hreply,
        hGA, hmem, hnc, hcontent, htruthy]
    have hpipe : innerPipeline o botId instanceId m cfg
        = (tier1GroupRunEffects o instanceId m cfg, none) := by
      simp [innerPipeline, handleGroupMessage, hself, hauth, hgroup, hginner]
    have hrun : handleIncomingMessage o botId instanceId m cfg
        = .ok (tier1GroupRunEffects o instanceId m cfg) := by
      simp [handleIncomingMessage, hpipe]
    refine ⟨tier1GroupRunEffects o instanceId m cfg, hrun, ?_, ?_⟩
    · by_cases hty : cfg.showTypingIndicator == some true <;>
        simp [tier1GroupRunEffects, replyContents, hty]
    · by_cases hty : cfg.showTypingIndicator == some true <;>
        simp [tier1GroupRunEffects, hasTier2Call, hty]

/-- Oracle of a run where Tier 1 answers `{output:"hi"}` but every reply
attempt throws. -/
def oracleHiReplyFails : Oracles :=
  { n8n := .ok ⟨some "hi"⟩, tier2 := .error (), replyFails := fun _ => true,
    loadedMessages := [] }

/-- C6 counterexample: when Tier 1 returns `{output:"hi"}` but the reply
throws, the catch block of the AI phase does invoke the Tier-2 fallback
model, so "Tier 2 is never invoked" does not hold unconditionally. -/
theorem tier1_reply_throw_invokes_fallback :
    oracleHiReplyFails.n8n = Except.ok ⟨some "hi"⟩ ∧
    Except.map hasTier2Call
        (handleIncomingMessage oracleHiReplyFails "bot" "bot1" msgDirect
          (mkInstanceConfig (some ["*"]) none none))
      = .ok true := by decide

/-- Witness for C6 at a concrete run. -/
theorem tier1_success_skips_fallback_witness :
    ∃ effs, handleIncomingMessage oracleHi "bot" "bot1" msgDirect
        (mkInstanceConfig (some ["*"]) none none) = .ok effs ∧
      replyContents effs = [some "hi"] ∧ hasTier2Call effs = false :=
  (tier1_success_skips_fallback oracleHi "bot" "bot1" msgDirect
    (mkInstanceConfig (some ["*"]) none none) rfl rfl rfl).1
    (by decide) (by decide) (by decide)

/-- C7: an inbound group message whose group id is not authorized (no group
wildcard, not an exact member of `allowedGroups`, and no user wildcard) is
dropped silently by the handler under any config built by `createInstance`:
the run has no effects at all, so no reply is attempted and no conversation
record is created or modified. -/
theorem unauthorized_group_dropped (o : Oracles) (botId instanceId : String)
    (m : Msg) (reqUsers reqGroups : Option (List String))
    (reqOpts : Option InstanceOptions)
    (hgroup : strContains m.sender.data "@g.us".data = true)
    (husers : "*" ∉ reqUsers.getD [])
    (hgw : "*" ∉ reqGroups.getD [])
    (hgm : m.sender ∉ reqGroups.getD []) :
    handleIncomingMessage o botId instanceId m
      (mkInstanceConfig reqUsers reqGroups reqOpts) = .ok [] := by
  have hag : (mkInstanceConfig reqUsers reqGroups reqOpts).allowedGroups
      = some (reqGroups.getD []) := rfl
  have hau : (mkInstanceConfig reqUsers reqGroups reqOpts).allowedUsers
      = some (reqUsers.getD []) := rfl
  have hGA : isGroupAuthorized m.sender
      (some (mkInstanceConfig reqUsers reqGroups reqOpts)) = false := by
    simp [isGroupAuthorized, hag, hgw, hgm]
  have hUA : isUserAuthorized m.sender
      (some (mkInstanceConfig reqUsers reqGroups reqOpts)) = false := by
    simp [isUserAuthorized, hau, husers, hgroup, hGA]
  have hps : (mkInstanceConfig reqUsers reqGroups reqOpts).processSelfMessages
      = none := rfl
  have hnu : (mkInstanceConfig reqUsers reqGroups reqOpts).notifyUnauthorized
      = none := rfl
  have hbeq : ((none : Option Bool) == some true) = false := rfl
  by_cases hm : m.fromMe <;>
    simp [handleIncomingMessage, innerPipeline, hm, hUA, hps, hnu, hbeq]

/-- Witness for C7: the spec scenario (group `g1`, `allowedGroups=["g2"]`)
yields an effect-free run. -/
theorem unauthorized_group_dropped_witness :
    handleIncomingMessage oracleHi "bot" "bot1"
      { fromMe := false, sender := "g1@g.us", author := some "u1@c.us",
        body := "!bot hi", mentionedIds := [] }
      (mkInstanceConfig (some []) (some ["g2@g.us"]) none) = .ok [] :=
  unauthorized_group_dropped oracleHi "bot" "bot1"
    { fromMe := false, sender := "g1@g.us", author := some "u1@c.us",
      body := "!bot hi", mentionedIds := [] }
    (some []) (some ["g2@g.us"]) none
    (by decide) (by decide) (by decide) (by decide)

/-- Witness for C9: a run whose denial-notice reply throws still ends with a
normal return carrying the attempted apology. -/
theorem inbound_never_raises_witness :
    innerPipeline oracleAllRepliesFail "bot" "bot1" msgDirect cfgNotify
      = ([Effect.replyAttempt (some unauthorizedText) false], some ()) ∧
    handleIncomingMessage oracleAllRepliesFail "bot" "bot1" msgDirect cfgNotify
      = .ok ([Effect.replyAttempt (some unauthorizedText) false]
          ++ [replyEffect oracleAllRepliesFail (some errorApologyText)]) :=
  ⟨by decide,
    (inbound_never_raises oracleAllRepliesFail "bot" "bot1" msgDirect cfgNotify).2
      [Effect.replyAttempt (some unauthorizedText) false] (by decide)⟩

end WaN8n
